import Mathlib

/-!
Shallow embedding of `src/src/zenml/utils/artifact_utils.py` (ZenML artifact
handling utilities).  Python objects (materializer classes, data-type classes,
loaded values, file contents) are abstracted by a type parameter `Obj`; the
external collaborators (the source-reference resolver `source_utils.load`, the
client/zen-store stack-component lookup, `StackComponent.from_model`, the
artifact store's `open`, `base64.b64encode`, the torch probe and the
yaml-file filesystem) are collected in an environment record `Env`.
Exceptions are modelled by `Except PyError`; the logger's warnings and error
messages and the sequence of source-reference resolution attempts are made
observable through a `Trace` record.
-/

/-- Python exception values as they matter to `artifact_utils.py`: the code
branches on `KeyError`, `ImportError`, `FileNotFoundError`,
`(ModuleNotFoundError, AttributeError)`, and raises `DoesNotExistException`,
`NotImplementedError` and `ModuleNotFoundError` with messages. `otherException`
stands for any other exception (all Python exceptions derive `Exception`). -/
inductive PyError where
  | keyError : PyError
  | importError : PyError
  | moduleNotFoundError : String → PyError
  | attributeError : String → PyError
  | fileNotFoundError : PyError
  | doesNotExistException : String → PyError
  | notImplementedError : String → PyError
  | otherException : String → PyError
deriving DecidableEq, Repr

/-- Modelled from the spec (the `zenml.enums` module is not under `src/`):
the enumerated visualization kinds, `IMAGE` among them. -/
inductive VisualizationType where
  | csv : VisualizationType
  | html : VisualizationType
  | image : VisualizationType
  | markdown : VisualizationType
deriving DecidableEq, Repr

/-- A visualization descriptor of an artifact: a `type` and a `uri`. -/
structure VisualizationModel where
  type : VisualizationType
  uri : String
deriving DecidableEq, Repr

/-- The fields of `ArtifactResponseModel` read by `artifact_utils.py`:
`id`, `uri`, `materializer` and `data_type` (source-reference strings),
`artifact_store_id` (nullable) and `visualizations`. -/
structure ArtifactResponseModel where
  id : String
  uri : String
  materializer : String
  data_type : String
  artifact_store_id : Option String
  visualizations : List VisualizationModel
deriving DecidableEq, Repr

/-- The stack-component model describing an artifact store; only its `name`
is read by the code. -/
structure StackComponentModel where
  name : String
deriving DecidableEq, Repr

/-- An instantiated artifact store handle; only its `name` and `open` are
used, `open` being supplied by the environment. -/
structure BaseArtifactStore where
  name : String
deriving DecidableEq, Repr

/-- The external collaborators of `artifact_utils.py`, over an abstract type
`Obj` of Python objects:
`resolveSource` is `source_utils.load`; `clientGetStackComponent` is
`Client().get_stack_component(component_type=ARTIFACT_STORE, ...)`;
`zenGetStackComponent` is `zen_store.get_stack_component`; `fromModel` is
`StackComponent.from_model`; `materializerLoad cls dtype uri` is
`materializer_class(uri).load(artifact_class)`; `storeOpen store uri mode`
is `artifact_store.open(uri, mode)` followed by `.read()`; `b64encode` is
`base64.b64encode` composed with the `bytes` cast; `torchAvailable` is
whether `import torch.nn` succeeds and `isTorchModule` is
`isinstance(-, nn.Module)`. -/
structure Env (Obj : Type) where
  resolveSource : String → Except PyError Obj
  clientGetStackComponent : String → Except PyError StackComponentModel
  zenGetStackComponent : String → Except PyError StackComponentModel
  fromModel : StackComponentModel → Except PyError BaseArtifactStore
  materializerLoad : Obj → Obj → String → Except PyError Obj
  storeOpen : BaseArtifactStore → String → String → Except PyError Obj
  b64encode : Obj → Obj
  torchAvailable : Bool
  isTorchModule : Obj → Bool

/-- Observable logging and resolution behaviour of one call: the source
references handed to `source_utils.load` in order, the `logger.error`
messages, and the `logger.warning` messages. -/
structure Trace where
  resolveCalls : List String := []
  errorLogs : List String := []
  warnings : List String := []
deriving DecidableEq, Repr

/-- A filesystem for the yaml metadata files: a path is mapped to the
key-value record stored there, if any.  `write_yaml`/`read_yaml` (the
`zenml.utils.yaml_utils` module is not under `src/`) are modelled from the
spec as faithful persistence of a key-value record in a structured text
file. -/
def FileSys : Type := String → Option (List (String × String))

/-- `os.path.join` for the one call site (a relative filename joined under a
non-empty directory path with no trailing separator). -/
def joinPath (a b : String) : String :=
  a ++ "/" ++ b

/-- Modelled from the spec (the `zenml.constants` module is not under
`src/`): the fixed well-known metadata filename `MODEL_METADATA_YAML_FILE_NAME`. -/
def MODEL_METADATA_YAML_FILE_NAME : String := "model_metadata.yaml"

/-- `METADATA_DATATYPE` from `artifact_utils.py`. -/
def METADATA_DATATYPE : String := "datatype"

/-- `METADATA_MATERIALIZER` from `artifact_utils.py`. -/
def METADATA_MATERIALIZER : String := "materializer"

/-- Python `dict[key]` on a key-value record: `some` value, or `none`
(a `KeyError`) when the key is absent. -/
def dictGet (d : List (String × String)) (k : String) : Option String :=
  match d with
  | [] => none
  | (k', v) :: rest => if k' = k then some v else dictGet rest k

/-- The metadata dict built by `save_model_metadata`: `datatype` then
`materializer`, in insertion order. -/
def modelMetadataOf (model_artifact : ArtifactResponseModel) : List (String × String) :=
  [(METADATA_DATATYPE, model_artifact.data_type),
   (METADATA_MATERIALIZER, model_artifact.materializer)]

/-- `save_model_metadata`: builds the two-key metadata dict, writes it with
`write_yaml` to a named temporary file (`tempName` stands for the name picked
by `tempfile.NamedTemporaryFile(suffix=".yaml", delete=False)`), and returns
that file's name together with the updated filesystem. -/
def save_model_metadata (fs : FileSys) (tempName : String)
    (model_artifact : ArtifactResponseModel) : String × FileSys :=
  (tempName,
   fun p => if p = tempName then some (modelMetadataOf model_artifact) else fs p)

/-- The `logger.error` message of `_load_artifact` when the materializer
source reference cannot be resolved. -/
def materializerErrorMsg (materializer : String) : String :=
  "ZenML cannot locate and import the materializer module '" ++ materializer ++
    "' which was used to write this artifact."

/-- The `logger.error` message of `_load_artifact` when the data-type source
reference cannot be resolved. -/
def dataTypeErrorMsg (data_type : String) : String :=
  "ZenML cannot locate and import the data type of this artifact '" ++
    data_type ++ "'."

/-- Whether an exception is caught by `except (ModuleNotFoundError,
AttributeError)`. -/
def isResolutionError : PyError → Bool
  | .moduleNotFoundError _ => true
  | .attributeError _ => true
  | _ => false

/-- `str(e)` of the exceptions wrapped by `ModuleNotFoundError(e)` in
`_load_artifact`. -/
def errStr : PyError → String
  | .moduleNotFoundError m => m
  | .attributeError m => m
  | .keyError => "KeyError"
  | .importError => "ImportError"
  | .fileNotFoundError => "FileNotFoundError"
  | .doesNotExistException m => m
  | .notImplementedError m => m
  | .otherException m => m

/-- `_load_artifact(materializer, data_type, uri)`: resolves the materializer
source reference (on `ModuleNotFoundError`/`AttributeError`: logs the error
naming the reference and raises `ModuleNotFoundError(e)`), then the data-type
source reference under the same policy, then instantiates the materializer on
the uri and invokes `load`. -/
def _load_artifact {Obj : Type} (env : Env Obj)
    (materializer data_type uri : String) : Except PyError Obj × Trace :=
  match env.resolveSource materializer with
  | .error e =>
    if isResolutionError e then
      (.error (.moduleNotFoundError (errStr e)),
       { resolveCalls := [materializer],
         errorLogs := [materializerErrorMsg materializer] })
    else
      (.error e, { resolveCalls := [materializer] })
  | .ok materializer_class =>
    match env.resolveSource data_type with
    | .error e =>
      if isResolutionError e then
        (.error (.moduleNotFoundError (errStr e)),
         { resolveCalls := [materializer, data_type],
           errorLogs := [dataTypeErrorMsg data_type] })
      else
        (.error e, { resolveCalls := [materializer, data_type] })
    | .ok artifact_class =>
      (env.materializerLoad materializer_class artifact_class uri,
       { resolveCalls := [materializer, data_type] })

/-- `load_model_from_metadata(model_uri)`: opens the fixed well-known
filename under `model_uri` (a `FileNotFoundError` when absent), reads the
yaml dict (`dict[key]` raising `KeyError` on a missing key), runs
`_load_artifact`, and then — only when `import torch.nn` succeeds and the
value is an `nn.Module` — calls `model.eval()`; the returned value is the
model either way.  The `Bool` component records whether `eval` was called. -/
def load_model_from_metadata {Obj : Type} (env : Env Obj) (fs : FileSys)
    (model_uri : String) : Except PyError Obj × Bool :=
  match fs (joinPath model_uri MODEL_METADATA_YAML_FILE_NAME) with
  | none => (.error .fileNotFoundError, false)
  | some metadata =>
    match dictGet metadata METADATA_DATATYPE with
    | none => (.error .keyError, false)
    | some data_type =>
      match dictGet metadata METADATA_MATERIALIZER with
      | none => (.error .keyError, false)
      | some materializer =>
        match (_load_artifact env materializer data_type model_uri).1 with
        | .error e => (.error e, false)
        | .ok model =>
          if env.torchAvailable && env.isTorchModule model then
            (.ok model, true)
          else
            (.ok model, false)

/-- The `logger.warning` message of `load_artifact` when the artifact store
could not be restored. -/
def storeWarning (id : String) : String :=
  "Unable to restore artifact store while trying to load artifact `" ++ id ++
    "`. If this artifact is stored in a remote artifact store, this might " ++
    "lead to issues when trying to load the artifact."

/-- The outcome of the store-restoration `try` block of `load_artifact`:
`ok true` when the component was fetched and instantiated, `ok false` when
the block was skipped (`artifact_store_id` falsy) or a `KeyError` was caught,
and `error e` when any other exception escapes the `except KeyError` clause. -/
def storeRestoreOutcome {Obj : Type} (env : Env Obj)
    (artifact : ArtifactResponseModel) : Except PyError Bool :=
  match artifact.artifact_store_id with
  | none => .ok false
  | some sid =>
    match env.clientGetStackComponent sid with
    | .error .keyError => .ok false
    | .error e => .error e
    | .ok m =>
      match env.fromModel m with
      | .error .keyError => .ok false
      | .error e => .error e
      | .ok _ => .ok true

/-- `load_artifact(artifact)`: tries to restore the artifact store (catching
only `KeyError`), warns when it could not be restored, and delegates to
`_load_artifact` on the record's materializer, data type and uri. -/
def load_artifact {Obj : Type} (env : Env Obj)
    (artifact : ArtifactResponseModel) : Except PyError Obj × Trace :=
  match storeRestoreOutcome env artifact with
  | .error e => (.error e, {})
  | .ok artifact_store_loaded =>
    let r := _load_artifact env artifact.materializer artifact.data_type
      artifact.uri
    if artifact_store_loaded then r
    else (r.1, { r.2 with warnings := storeWarning artifact.id :: r.2.warnings })

/-- The `DoesNotExistException` message of `_load_artifact_store_of_artifact`
for a record with no `artifact_store_id`. -/
def storeDeletedMsg (id : String) : String :=
  "Artifact '" ++ id ++ "' cannot be loaded because the underlying " ++
    "artifact store was deleted."

/-- The documentation link used in the `NotImplementedError` messages. -/
def docsLink : String :=
  "https://docs.zenml.io/component-gallery/artifact-stores/custom" ++
    "#enabling-artifact-visualizations-with-custom-artifact-stores"

/-- The `NotImplementedError` message of `_load_artifact_store_of_artifact`
when `StackComponent.from_model` raises `ImportError`. -/
def storeNotInstantiableMsg (id name : String) : String :=
  "Artifact '" ++ id ++ "' could not be loaded because the underlying " ++
    "artifact store '" ++ name ++ "' could not be instantiated. This is " ++
    "likely because the artifact store's dependencies are not installed. " ++
    "For more information, see " ++ docsLink ++ "."

/-- `_load_artifact_store_of_artifact(artifact)`: raises
`DoesNotExistException` ("store was deleted") when `artifact_store_id` is
falsy; otherwise fetches the component model from the zen store and
instantiates it, translating only `ImportError` into `NotImplementedError`. -/
def _load_artifact_store_of_artifact {Obj : Type} (env : Env Obj)
    (artifact : ArtifactResponseModel) : Except PyError BaseArtifactStore :=
  match artifact.artifact_store_id with
  | none => .error (.doesNotExistException (storeDeletedMsg artifact.id))
  | some sid =>
    match env.zenGetStackComponent sid with
    | .error e => .error e
    | .ok artifact_store_model =>
      match env.fromModel artifact_store_model with
      | .error .importError =>
        .error (.notImplementedError
          (storeNotInstantiableMsg artifact.id artifact_store_model.name))
      | .error e => .error e
      | .ok artifact_store => .ok artifact_store

/-- The `DoesNotExistException` message of `_load_file_from_artifact_store`
for a missing file. -/
def fileDoesNotExistMsg (uri name : String) : String :=
  "File '" ++ uri ++ "' does not exist in artifact store '" ++ name ++ "'."

/-- The `NotImplementedError` message of `_load_file_from_artifact_store`
for any other I/O failure. -/
def cannotOpenMsg (uri name : String) : String :=
  "File '" ++ uri ++ "' could not be loaded because the underlying " ++
    "artifact store '" ++ name ++ "' could not open the file. This is " ++
    "likely because the authentication credentials are not configured in " ++
    "the artifact store itself. For more information, see " ++ docsLink ++ "."

/-- `_load_file_from_artifact_store(uri, artifact_store, mode)`: opens and
reads the uri; `FileNotFoundError` becomes a `DoesNotExistException` naming
the uri and store, any other exception becomes a `NotImplementedError` with
the credentials guidance. -/
def _load_file_from_artifact_store {Obj : Type} (env : Env Obj) (uri : String)
    (artifact_store : BaseArtifactStore) (mode : String) : Except PyError Obj :=
  match env.storeOpen artifact_store uri mode with
  | .ok content => .ok content
  | .error .fileNotFoundError =>
    .error (.doesNotExistException (fileDoesNotExistMsg uri artifact_store.name))
  | .error _ =>
    .error (.notImplementedError (cannotOpenMsg uri artifact_store.name))

/-- The value returned by `load_artifact_visualization`: the visualization's
type and its (possibly base64-encoded) contents. -/
structure LoadedVisualizationModel (Obj : Type) where
  type : VisualizationType
  value : Obj

/-- The `DoesNotExistException` message of `load_artifact_visualization` for
a record with no visualizations. -/
def noVisualizationsMsg (id : String) : String :=
  "Artifact '" ++ id ++ "' has no visualizations."

/-- The `DoesNotExistException` message of `load_artifact_visualization` for
an out-of-range index, naming the number of visualizations. -/
def indexOutOfRangeMsg (id : String) (n : Nat) (index : Int) : String :=
  "Artifact '" ++ id ++ "' only has " ++ toString n ++
    " visualizations, but index " ++ toString index ++ " was requested."

/-- The body of `load_artifact_visualization` after the bounds checks
passed: resolves the artifact store, opens the visualization's uri in binary
mode for images and text mode otherwise, and base64-encodes image contents
when `encode_image` is set. -/
def load_visualization_from_store {Obj : Type} (env : Env Obj)
    (artifact : ArtifactResponseModel) (visualization : VisualizationModel)
    (encode_image : Bool) : Except PyError (LoadedVisualizationModel Obj) :=
  match _load_artifact_store_of_artifact env artifact with
  | .error e => .error e
  | .ok artifact_store =>
    let mode := if visualization.type = .image then "rb" else "r"
    match _load_file_from_artifact_store env visualization.uri artifact_store
      mode with
    | .error e => .error e
    | .ok value =>
      .ok { type := visualization.type,
            value := if visualization.type = .image ∧ encode_image then
                env.b64encode value
              else value }

/-- `artifact.visualizations[index]` for an index the bounds checks admitted
(`0 ≤ index < len`; the default is never reached there). -/
def vizAt (artifact : ArtifactResponseModel) (index : Int) : VisualizationModel :=
  artifact.visualizations.getD index.toNat { type := .image, uri := "" }

/-- `load_artifact_visualization(artifact, index, encode_image)`: raises
`DoesNotExistException` on an empty visualization list, then on an index
outside `[0, len)` naming the count, and otherwise loads the selected
visualization through the artifact store. -/
def load_artifact_visualization {Obj : Type} (env : Env Obj)
    (artifact : ArtifactResponseModel) (index : Int) (encode_image : Bool) :
    Except PyError (LoadedVisualizationModel Obj) :=
  if artifact.visualizations.isEmpty then
    .error (.doesNotExistException (noVisualizationsMsg artifact.id))
  else if index < 0 ∨ (artifact.visualizations.length : Int) ≤ index then
    .error (.doesNotExistException
      (indexOutOfRangeMsg artifact.id artifact.visualizations.length index))
  else
    load_visualization_from_store env artifact (vizAt artifact index)
      encode_image

/-!
Concrete instances used by witnesses and counterexamples (`Obj := Nat`).
-/

/-- An environment in which every collaborator succeeds: every source
reference resolves (to the class `1`), the stack component exists and
instantiates, the materializer loads the value `7`, the store reads the
contents `42`, base64-encoding adds `100`, and torch is not installed. -/
def envAllOk : Env Nat where
  resolveSource := fun _ => .ok 1
  clientGetStackComponent := fun _ => .ok { name := "store" }
  zenGetStackComponent := fun _ => .ok { name := "store" }
  fromModel := fun _ => .ok { name := "store" }
  materializerLoad := fun _ _ _ => .ok 7
  storeOpen := fun _ _ _ => .ok 42
  b64encode := fun v => v + 100
  torchAvailable := false
  isTorchModule := fun _ => false

/-- `envAllOk`, except that instantiating the artifact store raises
`ImportError` (its backend dependencies are missing). -/
def envImportErr : Env Nat :=
  { envAllOk with fromModel := fun _ => .error .importError }

/-- `envAllOk`, except that looking the artifact store up raises
`KeyError` (no such component). -/
def envKeyErr : Env Nat :=
  { envAllOk with clientGetStackComponent := fun _ => .error .keyError }

/-- `envAllOk`, except that the source reference `m.M` does not resolve. -/
def envMatErr : Env Nat :=
  { envAllOk with
      resolveSource := fun s =>
        if s = "m.M" then .error (.moduleNotFoundError "No module named m")
        else .ok 1 }

/-- `envAllOk`, except that opening any file on the store raises
`FileNotFoundError`. -/
def envFnf : Env Nat :=
  { envAllOk with storeOpen := fun _ _ _ => .error .fileNotFoundError }

/-- The empty filesystem. -/
def fsEmpty : FileSys := fun _ => none

/-- A model artifact record with no visualizations and no store id. -/
def artifactA : ArtifactResponseModel where
  id := "a1"
  uri := "model_dir"
  materializer := "mod.Mat"
  data_type := "mod.DT"
  artifact_store_id := none
  visualizations := []

/-- A filesystem holding the metadata of `artifactA` at the well-known
filename under the directory `model_dir`. -/
def fsModelDir : FileSys := fun p =>
  if p = joinPath "model_dir" MODEL_METADATA_YAML_FILE_NAME then
    some (modelMetadataOf artifactA)
  else none

/-- An artifact record whose `artifact_store_id` is set. -/
def artifactS : ArtifactResponseModel where
  id := "a2"
  uri := "u2"
  materializer := "m.M"
  data_type := "d.D"
  artifact_store_id := some "s1"
  visualizations := []

/-- An image visualization descriptor. -/
def vizImage : VisualizationModel where
  type := .image
  uri := "v.png"

/-- An artifact record with one visualization and no store id. -/
def artifactV0 : ArtifactResponseModel where
  id := "a3"
  uri := "u3"
  materializer := "m.M"
  data_type := "d.D"
  artifact_store_id := none
  visualizations := [vizImage]

/-- An artifact record with one visualization and a store id. -/
def artifactV1 : ArtifactResponseModel where
  id := "a4"
  uri := "u4"
  materializer := "m.M"
  data_type := "d.D"
  artifact_store_id := some "s1"
  visualizations := [vizImage]

/-!
Helper lemmas shared by several results.
-/

/-- Helper: when the store-restoration block of `load_artifact` completes
with `artifact_store_loaded = False`, the function logs the warning and
delegates to `_load_artifact` on the record's fields. -/
theorem load_artifact_not_restored {Obj : Type} (env : Env Obj)
    (a : ArtifactResponseModel)
    (h : storeRestoreOutcome env a = .ok false) :
    (load_artifact env a).1 =
      (_load_artifact env a.materializer a.data_type a.uri).1 ∧
    storeWarning a.id ∈ (load_artifact env a).2.warnings := by
  unfold load_artifact
  rw [h]
  simp

/-- Helper: nonempty visualization lists have `isEmpty = false`. -/
theorem visualizations_isEmpty_false (a : ArtifactResponseModel)
    (h : a.visualizations ≠ []) :
    a.visualizations.isEmpty = false := by
  cases hv : a.visualizations with
  | nil => exact absurd hv h
  | cons x xs => rfl

/-- Helper: a record with no `artifact_store_id`, probed at an in-bounds
index of a nonempty visualization list, makes `load_artifact_visualization`
raise the "store was deleted" `DoesNotExistException`. -/
theorem load_visualization_store_none {Obj : Type} (env : Env Obj)
    (a : ArtifactResponseModel) (index : Int) (enc : Bool)
    (hstore : a.artifact_store_id = none)
    (h0 : 0 ≤ index) (hlen : index < (a.visualizations.length : Int)) :
    load_artifact_visualization env a index enc =
      .error (.doesNotExistException (storeDeletedMsg a.id)) := by
  have hne : a.visualizations.isEmpty = false := by
    apply visualizations_isEmpty_false
    intro hnil
    rw [hnil] at hlen
    simp at hlen
    omega
  simp only [load_artifact_visualization, hne]
  rw [if_neg (by decide), if_neg (by omega)]
  simp only [load_visualization_from_store, _load_artifact_store_of_artifact,
    hstore]

/-!
Claim results.
-/

/-- C1 counterexample: with every source reference resolvable and the
materializer able to load a value, calling `save_model_metadata` and then
`load_model_from_metadata` on the very path it returned does not read the
metadata back: `load_model_from_metadata` joins the well-known filename
under that path, finds nothing there, and fails with `FileNotFoundError`. -/
theorem save_then_load_on_returned_path_fails :
    (load_model_from_metadata envAllOk
        (save_model_metadata fsEmpty "tmp123.yaml" artifactA).2
        (save_model_metadata fsEmpty "tmp123.yaml" artifactA).1).1 =
      .error .fileNotFoundError := rfl

/-- C1 (amended): for every artifact record and environment in which the
record's materializer and data-type references resolve, if the metadata
record written by `save_model_metadata` is stored at the well-known filename
under `model_uri`, then `load_model_from_metadata model_uri` reconstructs
the value with exactly the saved materializer/data-type pair. -/
theorem load_model_from_metadata_roundtrip {Obj : Type} (env : Env Obj)
    (fs : FileSys) (a : ArtifactResponseModel) (model_uri : String)
    (mc dc : Obj)
    (hfile : fs (joinPath model_uri MODEL_METADATA_YAML_FILE_NAME) =
      some (modelMetadataOf a))
    (hmat : env.resolveSource a.materializer = .ok mc)
    (hdt : env.resolveSource a.data_type = .ok dc) :
    (load_model_from_metadata env fs model_uri).1 =
      env.materializerLoad mc dc model_uri := by
  have h1 : dictGet (modelMetadataOf a) METADATA_DATATYPE = some a.data_type :=
    rfl
  have h2 : dictGet (modelMetadataOf a) METADATA_MATERIALIZER =
      some a.materializer := rfl
  cases hm : env.materializerLoad mc dc model_uri with
  | error e =>
    simp only [load_model_from_metadata, hfile, h1, h2, _load_artifact,
      hmat, hdt, hm]
  | ok v =>
    simp only [load_model_from_metadata, hfile, h1, h2, _load_artifact,
      hmat, hdt, hm]
    split <;> rfl

/-- C1 witness: a concrete run of the amended round-trip. -/
theorem load_model_from_metadata_roundtrip_witness :
    (load_model_from_metadata envAllOk fsModelDir "model_dir").1 =
      Except.ok 7 :=
  load_model_from_metadata_roundtrip envAllOk fsModelDir artifactA
    "model_dir" 1 1 rfl rfl rfl

/-- C2 counterexample: an artifact whose `artifact_store_id` is set, in an
environment where instantiating the store raises `ImportError` (missing
backend dependencies): `load_artifact` raises that `ImportError` at the
store-resolution step — it neither warns nor proceeds to materializer
resolution (no source reference is ever resolved). -/
theorem load_artifact_import_error_raises :
    load_artifact envImportErr artifactS =
      (.error .importError,
       { resolveCalls := [], errorLogs := [], warnings := [] }) := rfl

/-- C2 (amended): only a `KeyError` from store resolution — the component
lookup or `StackComponent.from_model` raising `KeyError` — is tolerated by
`load_artifact`: then it emits the non-fatal warning and proceeds to
materializer and data-type resolution.  Any other failure (such as an
`ImportError` from missing backend dependencies) propagates. -/
theorem load_artifact_keyerror_warns_and_proceeds {Obj : Type} (env : Env Obj)
    (a : ArtifactResponseModel) (sid : String)
    (hsid : a.artifact_store_id = some sid)
    (hfail : env.clientGetStackComponent sid = .error .keyError ∨
      ∃ m, env.clientGetStackComponent sid = .ok m ∧
        env.fromModel m = .error .keyError) :
    (load_artifact env a).1 =
      (_load_artifact env a.materializer a.data_type a.uri).1 ∧
    storeWarning a.id ∈ (load_artifact env a).2.warnings := by
  apply load_artifact_not_restored
  rcases hfail with h | ⟨m, h1, h2⟩
  · simp only [storeRestoreOutcome, hsid, h]
  · simp only [storeRestoreOutcome, hsid, h1, h2]

/-- C2 witness: a concrete run of the amended tolerant case. -/
theorem load_artifact_keyerror_warns_and_proceeds_witness :
    (load_artifact envKeyErr artifactS).1 =
      (_load_artifact envKeyErr artifactS.materializer artifactS.data_type
        artifactS.uri).1 ∧
    storeWarning artifactS.id ∈ (load_artifact envKeyErr artifactS).2.warnings :=
  load_artifact_keyerror_warns_and_proceeds envKeyErr artifactS "s1" rfl
    (Or.inl rfl)

/-- C3: when the materializer source reference of a record is unresolvable
(`source_utils.load` raises `ModuleNotFoundError`) and the store-restoration
step completes, `load_artifact` fails with a `ModuleNotFoundError`, logs the
"cannot locate and import the materializer module" error naming the exact
reference string, and resolves only the materializer reference — the
data-type reference is never handed to the resolver. -/
theorem load_artifact_materializer_unresolvable_short_circuits
    {Obj : Type} (env : Env Obj) (a : ArtifactResponseModel) (m : String)
    (b : Bool)
    (hres : env.resolveSource a.materializer =
      .error (.moduleNotFoundError m))
    (hstore : storeRestoreOutcome env a = .ok b) :
    (load_artifact env a).1 = .error (.moduleNotFoundError m) ∧
    (load_artifact env a).2.errorLogs = [materializerErrorMsg a.materializer] ∧
    (load_artifact env a).2.resolveCalls = [a.materializer] ∧
    ∃ pre post, materializerErrorMsg a.materializer =
      pre ++ a.materializer ++ post := by
  have hLA : _load_artifact env a.materializer a.data_type a.uri =
      (.error (.moduleNotFoundError m),
       { resolveCalls := [a.materializer],
         errorLogs := [materializerErrorMsg a.materializer],
         warnings := [] }) := by
    unfold _load_artifact
    rw [hres]
    rfl
  have hmain : (load_artifact env a).1 = .error (.moduleNotFoundError m) ∧
      (load_artifact env a).2.errorLogs =
        [materializerErrorMsg a.materializer] ∧
      (load_artifact env a).2.resolveCalls = [a.materializer] := by
    unfold load_artifact
    rw [hstore]
    cases b <;> simp [hLA]
  exact ⟨hmain.1, hmain.2.1, hmain.2.2, _, _, rfl⟩

/-- C3 witness: a concrete record whose materializer reference `m.M` is
unresolvable. -/
theorem load_artifact_materializer_unresolvable_witness :
    (load_artifact envMatErr artifactS).1 =
      .error (.moduleNotFoundError "No module named m") ∧
    (load_artifact envMatErr artifactS).2.errorLogs =
      [materializerErrorMsg artifactS.materializer] ∧
    (load_artifact envMatErr artifactS).2.resolveCalls =
      [artifactS.materializer] ∧
    ∃ pre post, materializerErrorMsg artifactS.materializer =
      pre ++ artifactS.materializer ++ post :=
  load_artifact_materializer_unresolvable_short_circuits envMatErr artifactS
    "No module named m" true rfl rfl

/-- C4: a record with a null `artifact_store_id`, a nonempty visualization
list and an in-bounds index makes `load_artifact_visualization` fail with
exactly the "store was deleted" `DoesNotExistException` — not the
"store unavailable" `NotImplementedError`, and not a raw exception. -/
theorem load_visualization_store_deleted {Obj : Type} (env : Env Obj)
    (a : ArtifactResponseModel) (index : Int) (enc : Bool)
    (hstore : a.artifact_store_id = none)
    (h0 : 0 ≤ index) (hlen : index < (a.visualizations.length : Int)) :
    load_artifact_visualization env a index enc =
      .error (.doesNotExistException (storeDeletedMsg a.id)) :=
  load_visualization_store_none env a index enc hstore h0 hlen

/-- C4 witness: a concrete record with one visualization and no store id. -/
theorem load_visualization_store_deleted_witness :
    load_artifact_visualization envAllOk artifactV0 0 false =
      .error (.doesNotExistException (storeDeletedMsg artifactV0.id)) :=
  load_visualization_store_deleted envAllOk artifactV0 0 false rfl
    (by decide) (by decide)

/-- C5: `load_artifact_visualization` fails with the "has no visualizations"
`DoesNotExistException` on an empty visualization list; on a nonempty list of
length N it fails with the "only has N visualizations" message (naming N) for
any index outside `[0, N)`; and at index `N - 1` both bounds checks pass and
the call proceeds to the store-loading stage. -/
theorem load_visualization_bounds_checks {Obj : Type} (env : Env Obj)
    (a : ArtifactResponseModel) (index : Int) (enc : Bool) :
    (a.visualizations = [] →
      load_artifact_visualization env a index enc =
        .error (.doesNotExistException (noVisualizationsMsg a.id))) ∧
    (a.visualizations ≠ [] →
      (index < 0 ∨ (a.visualizations.length : Int) ≤ index) →
      load_artifact_visualization env a index enc =
        .error (.doesNotExistException
          (indexOutOfRangeMsg a.id a.visualizations.length index))) ∧
    (0 < a.visualizations.length →
      load_artifact_visualization env a ((a.visualizations.length : Int) - 1)
          enc =
        load_visualization_from_store env a
          (vizAt a ((a.visualizations.length : Int) - 1)) enc) := by
  refine ⟨fun h => ?_, fun h hidx => ?_, fun h => ?_⟩
  · simp [load_artifact_visualization, h]
  · have hne := visualizations_isEmpty_false a h
    simp only [load_artifact_visualization, hne]
    rw [if_neg (by decide), if_pos hidx]
  · have hne : a.visualizations.isEmpty = false := by
      apply visualizations_isEmpty_false
      intro hnil
      rw [hnil] at h
      simp at h
    simp only [load_artifact_visualization, hne]
    rw [if_neg (by decide), if_neg (by omega)]

/-- C5 witness: a record with one visualization, probed at the out-of-range
index 1. -/
theorem load_visualization_bounds_checks_witness :
    load_artifact_visualization envAllOk artifactV1 1 false =
      .error (.doesNotExistException
        (indexOutOfRangeMsg artifactV1.id artifactV1.visualizations.length
          1)) :=
  (load_visualization_bounds_checks envAllOk artifactV1 1 false).2.1
    (by decide) (by decide)

/-- C6: `_load_file_from_artifact_store` translates a `FileNotFoundError`
from the store into the "does not exist" `DoesNotExistException` naming the
uri and store, translates every other exception into the "could not open
the file" `NotImplementedError` carrying the credentials/configuration
guidance, passes successful reads through, and lets no other error shape
escape. -/
theorem load_file_error_translation {Obj : Type} (env : Env Obj)
    (uri : String) (store : BaseArtifactStore) (mode : String) :
    (env.storeOpen store uri mode = .error .fileNotFoundError →
      _load_file_from_artifact_store env uri store mode =
        .error (.doesNotExistException (fileDoesNotExistMsg uri store.name))) ∧
    (∀ e, env.storeOpen store uri mode = .error e → e ≠ .fileNotFoundError →
      _load_file_from_artifact_store env uri store mode =
        .error (.notImplementedError (cannotOpenMsg uri store.name))) ∧
    (∀ c, env.storeOpen store uri mode = .ok c →
      _load_file_from_artifact_store env uri store mode = .ok c) ∧
    (∀ e, _load_file_from_artifact_store env uri store mode = .error e →
      (∃ msg, e = .doesNotExistException msg) ∨
      ∃ msg, e = .notImplementedError msg) := by
  refine ⟨fun h => ?_, fun e h hne => ?_, fun c h => ?_, fun e h => ?_⟩
  · simp only [_load_file_from_artifact_store, h]
  · simp only [_load_file_from_artifact_store, h]
  · simp only [_load_file_from_artifact_store, h]
  · unfold _load_file_from_artifact_store at h
    cases ho : env.storeOpen store uri mode with
    | ok c =>
      rw [ho] at h
      simp at h
    | error e' =>
      rw [ho] at h
      cases e' <;> injection h with h' <;> subst h' <;>
        first
        | exact Or.inl ⟨_, rfl⟩
        | exact Or.inr ⟨_, rfl⟩

/-- C6 witness: a concrete store whose `open` raises `FileNotFoundError`. -/
theorem load_file_error_translation_witness :
    _load_file_from_artifact_store envFnf "u1"
        { name := "st" : BaseArtifactStore } "r" =
      .error (.doesNotExistException (fileDoesNotExistMsg "u1" "st")) :=
  (load_file_error_translation envFnf "u1"
    { name := "st" : BaseArtifactStore } "r").1 rfl

/-- C7: once the bounds checks pass and the artifact store resolves,
`load_artifact_visualization` opens the selected visualization's uri in
binary mode (`rb`) exactly when its type is `IMAGE` and in text mode (`r`)
otherwise, base64-encodes the contents exactly when the type is `IMAGE` and
encoding was requested, and returns the raw contents in every other case;
for a non-image type the `encode_image` flag has no effect on the result. -/
theorem load_visualization_mode_and_encoding {Obj : Type} (env : Env Obj)
    (a : ArtifactResponseModel) (index : Int) (enc : Bool)
    (store : BaseArtifactStore)
    (hstore : _load_artifact_store_of_artifact env a = .ok store)
    (h0 : 0 ≤ index) (hlen : index < (a.visualizations.length : Int)) :
    (load_artifact_visualization env a index enc =
      Except.map
        (fun c =>
          ({ type := (vizAt a index).type,
             value := if (vizAt a index).type = .image ∧ enc then
                 env.b64encode c
               else c } : LoadedVisualizationModel Obj))
        (_load_file_from_artifact_store env (vizAt a index).uri store
          (if (vizAt a index).type = .image then "rb" else "r"))) ∧
    ((vizAt a index).type ≠ .image →
      load_artifact_visualization env a index true =
        load_artifact_visualization env a index false) := by
  have hne : a.visualizations.isEmpty = false := by
    apply visualizations_isEmpty_false
    intro hnil
    rw [hnil] at hlen
    simp at hlen
    omega
  have key : ∀ b : Bool, load_artifact_visualization env a index b =
      Except.map
        (fun c =>
          ({ type := (vizAt a index).type,
             value := if (vizAt a index).type = .image ∧ b then
                 env.b64encode c
               else c } : LoadedVisualizationModel Obj))
        (_load_file_from_artifact_store env (vizAt a index).uri store
          (if (vizAt a index).type = .image then "rb" else "r")) := by
    intro b
    simp only [load_artifact_visualization, hne]
    rw [if_neg (by decide), if_neg (by omega)]
    simp only [load_visualization_from_store, hstore]
    cases hf : _load_file_from_artifact_store env (vizAt a index).uri store
        (if (vizAt a index).type = .image then "rb" else "r") <;>
      simp [Except.map, hf]
  refine ⟨key enc, fun hnim => ?_⟩
  rw [key true, key false]
  simp [hnim]

/-- C7 witness: an image visualization loaded with `encode_image = true`
through a resolvable store returns the base64-encoded contents. -/
theorem load_visualization_mode_and_encoding_witness :
    load_artifact_visualization envAllOk artifactV1 0 true =
      .ok ({ type := .image, value := 142 } : LoadedVisualizationModel Nat) :=
  ((load_visualization_mode_and_encoding envAllOk artifactV1 0 true
      { name := "store" : BaseArtifactStore } rfl (by decide)
      (by decide)).1).trans rfl

/-- C8 counterexample: `save_model_metadata` does not write at the fixed
well-known metadata filename within the model artifact's directory: on a
concrete record with uri `model_dir` and temp-file name `tmp123.yaml` the
returned location differs from `model_dir/model_metadata.yaml`, and nothing
is written there. -/
theorem save_model_metadata_not_at_wellknown_path :
    (save_model_metadata fsEmpty "tmp123.yaml" artifactA).1 ≠
      joinPath artifactA.uri MODEL_METADATA_YAML_FILE_NAME ∧
    (save_model_metadata fsEmpty "tmp123.yaml" artifactA).2
      (joinPath artifactA.uri MODEL_METADATA_YAML_FILE_NAME) = none := by
  refine ⟨?_, rfl⟩
  decide

/-- C8 (amended): `save_model_metadata` writes a key-value file holding
exactly the two keys `datatype` and `materializer` with the record's
data-type and materializer source-reference strings (and no store
reference), to the named temporary file whose name it returns; placing it
at the well-known filename under the model directory is the caller's job. -/
theorem save_model_metadata_writes_two_keys (fs : FileSys) (tempName : String)
    (a : ArtifactResponseModel) :
    (save_model_metadata fs tempName a).1 = tempName ∧
    (save_model_metadata fs tempName a).2 tempName =
      some [(METADATA_DATATYPE, a.data_type),
            (METADATA_MATERIALIZER, a.materializer)] := by
  refine ⟨rfl, ?_⟩
  simp [save_model_metadata, modelMetadataOf]

/-- C9: when the metadata file is readable, holds both keys and the
materializer loads a value, `load_model_from_metadata` returns that value
without error, and the `model.eval()` post-load adjustment runs exactly when
torch is importable and the value is a torch `nn.Module`; when that
capability is absent the adjustment is silently skipped. -/
theorem load_model_eval_mode_best_effort {Obj : Type} (env : Env Obj)
    (fs : FileSys) (model_uri : String) (md : List (String × String))
    (dt mat : String) (model : Obj)
    (hfile : fs (joinPath model_uri MODEL_METADATA_YAML_FILE_NAME) = some md)
    (hdt : dictGet md METADATA_DATATYPE = some dt)
    (hmat : dictGet md METADATA_MATERIALIZER = some mat)
    (hload : (_load_artifact env mat dt model_uri).1 = .ok model) :
    load_model_from_metadata env fs model_uri =
      (.ok model, env.torchAvailable && env.isTorchModule model) := by
  simp only [load_model_from_metadata, hfile, hdt, hmat, hload]
  cases ht : env.torchAvailable && env.isTorchModule model <;> simp [ht]

/-- C9 witness: a concrete load in an environment without torch returns the
value and skips the adjustment. -/
theorem load_model_eval_mode_best_effort_witness :
    load_model_from_metadata envAllOk fsModelDir "model_dir" =
      (Except.ok 7, false) :=
  load_model_eval_mode_best_effort envAllOk fsModelDir "model_dir"
    (modelMetadataOf artifactA) "mod.DT" "mod.Mat" 7 rfl rfl rfl rfl

/-- C10: the two public read paths treat a missing store asymmetrically:
for a record whose `artifact_store_id` is null (with a nonempty
visualization list and in-bounds index for the visualization path),
`load_artifact` warns and proceeds to materializer resolution, while
`load_artifact_visualization` on the same record hard-fails with the
"store was deleted" `DoesNotExistException`. -/
theorem store_resolution_asymmetry {Obj : Type} (env : Env Obj)
    (a : ArtifactResponseModel) (index : Int) (enc : Bool)
    (hstore : a.artifact_store_id = none)
    (h0 : 0 ≤ index) (hlen : index < (a.visualizations.length : Int)) :
    ((load_artifact env a).1 =
      (_load_artifact env a.materializer a.data_type a.uri).1 ∧
     storeWarning a.id ∈ (load_artifact env a).2.warnings) ∧
    load_artifact_visualization env a index enc =
      .error (.doesNotExistException (storeDeletedMsg a.id)) := by
  refine ⟨load_artifact_not_restored env a ?_,
    load_visualization_store_none env a index enc hstore h0 hlen⟩
  unfold storeRestoreOutcome
  rw [hstore]

/-- C10 witness: a concrete record with one visualization and no store id,
read through both paths. -/
theorem store_resolution_asymmetry_witness :
    ((load_artifact envAllOk artifactV0).1 =
      (_load_artifact envAllOk artifactV0.materializer artifactV0.data_type
        artifactV0.uri).1 ∧
     storeWarning artifactV0.id ∈ (load_artifact envAllOk artifactV0).2.warnings) ∧
    load_artifact_visualization envAllOk artifactV0 0 false =
      .error (.doesNotExistException (storeDeletedMsg artifactV0.id)) :=
  store_resolution_asymmetry envAllOk artifactV0 0 false rfl (by decide)
    (by decide)
